import Mathlib

/-!
Shallow embedding of the st-plot-director extension (SillyTavern plot
director).  Sources embedded here:

* `src/index.js` — director engine (`runDirectorRound`, `onGenerationEnded`,
  `startDirector`, `stopDirector`), message assembly (`buildMessages`,
  `buildChatHistory`, `shouldInjectOutlineToLLM`), regex filter chain
  (`applyRegexRules`), and the init-time round-state reset.
* `src/utils/api.js` — proxy response decoding (`generateViaProxy`) and the
  Claude-native message normalization (`generateDirectClaude`).
* `src/utils/preset-manager.js` — `getCurrentPreset`,
  `ensurePromptManagerConfig`, `getDefaultPromptManagerConfig`.

JavaScript idioms are embedded explicitly: `x || y` on strings is
`jsOrString`, `x || y` on optional strings is `jsOr`, absent (`undefined` /
`null`) fields are `Option`, and `Array.prototype.slice(-n)` is
`sliceLastJS` (including the `slice(-0) = slice(0)` corner).
-/

namespace StPlotDirector

/-- Message roles used by the extension (the data model admits exactly
`system`, `user`, `assistant`). -/
inductive Role where
  | system
  | user
  | assistant
deriving DecidableEq, Repr

/-- An LLM chat message `{ role, content }`. -/
structure Message where
  role : Role
  content : String
deriving DecidableEq, Repr

/-- A host-application chat turn, with the fields the extension reads:
`name`, `is_user`, `is_system`, `mes`.  An absent `name` is modelled as
the empty string (it is only ever used through JS `||`). -/
structure ChatMessage where
  name : String
  is_user : Bool
  is_system : Bool
  mes : String
deriving DecidableEq, Repr

/-- JS `a || b` where `a` is a string: the empty string is falsy. -/
def jsOrString (a b : String) : String :=
  if a = "" then b else a

/-- JS `a || b` where `a` is a possibly-absent string: `undefined`/`null`
and the empty string are falsy. -/
def jsOr (a : Option String) (b : String) : String :=
  match a with
  | none => b
  | some s => if s = "" then b else s

/-- JS `chat.slice(-n)`.  For `n > 0` this is the last `n` elements (or the
whole array when it is shorter); `slice(-0)` is `slice(0)`, the whole
array. -/
def sliceLastJS (chat : List ChatMessage) (n : Nat) : List ChatMessage :=
  if n = 0 then chat else chat.drop (chat.length - n)

/-- `msg.name || (msg.is_user ? 'User' : 'Character')` from
`buildChatHistory` (src/index.js:1798). -/
def speakerName (m : ChatMessage) : String :=
  jsOrString m.name (if m.is_user then "User" else "Character")

/-- `msg.is_user ? 'user' : 'assistant'` (src/index.js:1807). -/
def roleOf (m : ChatMessage) : String :=
  if m.is_user then "user" else "assistant"

/-- `buildChatHistory(chat, settings, mode)` (src/index.js:1790-1812):
slice the last `contextLength` turns, drop non-user system notices, then
accumulate `name: mes` lines (text mode) or `[role] name: mes` lines
(any other mode) and trim. -/
def buildChatHistory (chat : List ChatMessage) (contextLength : Nat)
    (mode : String) : String :=
  let recentChat := sliceLastJS chat contextLength
  let filtered := recentChat.filter (fun m => !(m.is_system && !m.is_user))
  if mode = "text" then
    (filtered.foldl (fun acc m => acc ++ s!"{speakerName m}: {m.mes}\n\n") "").trim
  else
    (filtered.foldl (fun acc m => acc ++ s!"[{roleOf m}] {speakerName m}: {m.mes}\n\n") "").trim

/-! Preset manager (src/utils/preset-manager.js). -/

/-- A prompt-manager content block.  `content = none` models JS `null`
(fixed blocks derive their body from live state); `tagName = none` models
an `undefined` field of a pre-migration preset. -/
structure Block where
  id : String
  type : String
  role : String
  label : String
  enabled : Bool
  content : Option String
  tagName : Option String
deriving DecidableEq, Repr

/-- A preset's `prompt_manager` configuration. -/
structure PromptManagerConfig where
  chatHistoryMode : String
  blocks : List Block
deriving DecidableEq, Repr

/-- A preset; `prompt_manager = none` models a pre-migration preset with
the field absent. -/
structure Preset where
  name : String
  system_prompt : String
  prompt_manager : Option PromptManagerConfig
deriving DecidableEq, Repr

/-- `DEFAULT_PM_BLOCKS` (src/utils/preset-manager.js:51-56). -/
def DEFAULT_PM_BLOCKS : List Block :=
  [ ⟨"system_prompt", "fixed", "system", "System Prompt", true, none, some ""⟩,
    ⟨"plot_outline", "fixed", "system", "Plot Outline", true, none, some "plot outline"⟩,
    ⟨"chat_history", "fixed", "special", "Chat History", true, none, some "history log"⟩,
    ⟨"instruction", "fixed", "user", "Instruction", true,
      some "Based on the conversation above, generate the next plot direction.", some ""⟩ ]

/-- `getDefaultPromptManagerConfig(chatHistoryMode)`
(src/utils/preset-manager.js:64-69). -/
def getDefaultPromptManagerConfig (chatHistoryMode : String) : PromptManagerConfig :=
  ⟨chatHistoryMode, DEFAULT_PM_BLOCKS⟩

/-- The per-block migration step of `ensurePromptManagerConfig`
(src/utils/preset-manager.js:85-96): a block whose `tagName` is
`undefined` gets a default depending on its id. -/
def migrateBlock (b : Block) : Block :=
  match b.tagName with
  | some _ => b
  | none =>
      let dflt : String :=
        if b.id = "chat_history" then "history log"
        else if b.id = "plot_outline" then "plot outline"
        else ""
      { b with tagName := some dflt }

/-- `ensurePromptManagerConfig(preset)` (src/utils/preset-manager.js:76-98),
as a pure function returning the migrated preset.  A preset without a
`prompt_manager` receives the default config in `'text'` mode; otherwise
every block lacking a `tagName` is migrated. -/
def ensurePromptManagerConfig (p : Preset) : Preset :=
  match p.prompt_manager with
  | none => { p with prompt_manager := some (getDefaultPromptManagerConfig "text") }
  | some c =>
      { p with prompt_manager := some { c with blocks := c.blocks.map migrateBlock } }

/-- Name-keyed preset mapping: `settings.presets[name]` as an association
list lookup (stored presets are objects, hence truthy). -/
def lookupPreset (presets : List (String × Preset)) (name : String) : Option Preset :=
  (presets.find? (fun kv => kv.1 = name)).map Prod.snd

/-- The settings fields the embedded core reads
(`defaultSettings`, src/index.js:1352-1386). -/
structure Settings where
  enabled : Bool
  running : Bool
  rounds : Nat
  currentRound : Nat
  contextLength : Nat
  outlineEnabled : Bool
  outline : String
  outlinePromptRounds : Nat
  selectedPreset : String
  presets : List (String × Preset)
deriving DecidableEq, Repr

/-- `getCurrentPreset(settings)` (src/utils/preset-manager.js:105-112):
`null` when `selectedPreset` is falsy (the empty string) or no preset is
stored under that name; otherwise the stored preset after
`ensurePromptManagerConfig`. -/
def getCurrentPreset (s : Settings) : Option Preset :=
  if s.selectedPreset = "" then none
  else
    match lookupPreset s.presets s.selectedPreset with
    | none => none
    | some p => some (ensurePromptManagerConfig p)

/-! Message assembly (src/index.js:1814-1888). -/

/-- `shouldInjectOutlineToLLM(settings)` (src/index.js:1814-1822).
`settings.outlinePromptRounds || 999` makes 0 fall back to 999. -/
def shouldInjectOutlineToLLM (s : Settings) : Bool :=
  if !s.outlineEnabled then false
  else if s.outline.trim = "" then false
  else
    let maxRounds := if s.outlinePromptRounds = 0 then 999 else s.outlinePromptRounds
    s.currentRound < maxRounds

/-- The `switch (block.id)` of `buildMessages` (src/index.js:1839-1864):
resolve one block's body. -/
def resolveBlockContent (s : Settings) (preset : Option Preset)
    (chat : List ChatMessage) (mode : String) (block : Block) : String :=
  if block.id = "system_prompt" then
    match preset with
    | none => ""
    | some p => p.system_prompt
  else if block.id = "plot_outline" then
    if shouldInjectOutlineToLLM s then s.outline else ""
  else if block.id = "chat_history" then
    buildChatHistory chat s.contextLength mode
  else if block.id = "instruction" then
    jsOr block.content ""
  else if block.type = "custom" then
    jsOr block.content ""
  else ""

/-- The tag-wrapping step of `buildMessages` (src/index.js:1870-1873):
wrap when `block.tagName && block.tagName.trim()` is truthy, using the
trimmed tag name. -/
def wrapBlock (block : Block) (content : String) : String :=
  match block.tagName with
  | none => content
  | some t =>
      if t.trim = "" then content
      else "<" ++ t.trim ++ ">\n" ++ content ++ "\n</" ++ t.trim ++ ">"

/-- `buildMessages(settings)` (src/index.js:1824-1888): iterate the
current preset's blocks, skip disabled blocks and blocks whose resolved
body is whitespace-only, wrap the rest, join with a blank line, and
return one `user` message. -/
def buildMessages (s : Settings) (chat : List ChatMessage) : List Message :=
  let preset := getCurrentPreset s
  let pmConfig :=
    match preset with
    | some p => (p.prompt_manager).getD (getDefaultPromptManagerConfig "role")
    | none => getDefaultPromptManagerConfig "role"
  let contentParts := pmConfig.blocks.filterMap (fun block =>
    if !block.enabled then none
    else
      let blockContent := resolveBlockContent s preset chat pmConfig.chatHistoryMode block
      if blockContent.trim = "" then none
      else some (wrapBlock block blockContent))
  [⟨Role.user, String.intercalate "\n\n" contentParts⟩]

/-! Regex filter chain (src/index.js:1890-1914).  Regex compilation and
replacement are host-engine operations; they are abstracted as a
`compile` oracle mapping a rule to `none` (the `new RegExp` constructor
threw) or to the replacement action `String → String` the compiled
`{regex, replacement}` pair performs via `content.replace`. -/

/-- A `regexRules` entry.  `replacement` is optional (`rule.replacement
|| ''` in the source); compilation only ever sees the pattern, flags and
replacement, so the oracle takes the whole rule. -/
structure RegexRule where
  pattern : String
  flags : String
  replacement : Option String
  enabled : Bool
  label : String
deriving DecidableEq, Repr

/-- `applyRegexRules(messages, rules)` (src/index.js:1890-1914),
parameterized by the regex-engine oracle `compile`.  Enabled rules with a
truthy (non-empty) pattern are compiled once; a rule that fails to
compile is dropped (the source logs a warning); the surviving actions are
folded over each message's content in listed order. -/
def applyRegexRules (compile : RegexRule → Option (String → String))
    (messages : List Message) (rules : List RegexRule) : List Message :=
  if rules.isEmpty then messages
  else
    let activeRules := rules.filter (fun r => r.enabled && !(r.pattern = ""))
    if activeRules.isEmpty then messages
    else
      let compiled := activeRules.filterMap compile
      if compiled.isEmpty then messages
      else
        messages.map (fun m =>
          let content : String := compiled.foldl (fun c f => f c) m.content
          if content ≠ m.content then { m with content := content } else m)

/-! Proxy response decoding (src/utils/api.js:56-69). -/

/-- `choices[0].message` of a proxy response. -/
structure ChoiceMessage where
  content : Option String
deriving DecidableEq, Repr

/-- One `choices` entry of a proxy response. -/
structure ChoiceEntry where
  message : Option ChoiceMessage
  text : Option String
deriving DecidableEq, Repr

/-- One `content` entry of a proxy response. -/
structure ContentEntry where
  text : Option String
deriving DecidableEq, Repr

/-- The proxy response body as `generateViaProxy` inspects it: either a
bare JSON string, or an object whose `choices` and `content` arrays may
each be absent. -/
inductive ProxyResponse where
  | str (s : String)
  | obj (choices : Option (List ChoiceEntry)) (content : Option (List ContentEntry))
deriving DecidableEq, Repr

/-- `choices[0].message?.content` as an optional string. -/
def choiceMessageContent (c : ChoiceEntry) : Option String :=
  match c.message with
  | none => none
  | some m => m.content

/-- The response-shape detection of `generateViaProxy`
(src/utils/api.js:56-69): bare string, else `choices[0]` (returning
`message?.content || text || ''`), else `content[0]` (returning
`text || ''`), else the malformed-response error. -/
def decodeProxyResponse : ProxyResponse → Except String String
  | .str s => .ok s
  | .obj choices content =>
      match choices with
      | some (c :: _) => .ok (jsOr (choiceMessageContent c) (jsOr c.text ""))
      | _ =>
          match content with
          | some (e :: _) => .ok (jsOr e.text "")
          | _ => .error "Unexpected proxy response format"

/-! Claude-native normalization (src/utils/api.js:119-149). -/

/-- The body of the consecutive-same-role merge loop of
`generateDirectClaude` (src/utils/api.js:126-133): `cur` is the last
entry of `mergedMsgs`, still open for merging; an equal-role successor is
folded into it with a blank-line join, a different-role successor closes
it. -/
def mergeRun (cur : Message) : List Message → List Message
  | [] => [cur]
  | b :: rest =>
      if cur.role = b.role then
        mergeRun ⟨cur.role, cur.content ++ "\n\n" ++ b.content⟩ rest
      else
        cur :: mergeRun b rest

/-- The consecutive-same-role merge of `generateDirectClaude`
(src/utils/api.js:126-133). -/
def mergeConsecutive : List Message → List Message
  | [] => []
  | a :: rest => mergeRun a rest

/-- The message normalization of `generateDirectClaude`
(src/utils/api.js:120-138): extract `system` messages into one
blank-line-joined system text, merge consecutive same-role messages, and
prepend the `[Conversation start]` placeholder when the first remaining
message is assistant-role.  Returns `(system text, messages)`. -/
def claudeNormalize (messages : List Message) : String × List Message :=
  let systemText := String.intercalate "\n\n"
    ((messages.filter (fun m => decide (m.role = Role.system))).map Message.content)
  let chatMsgs := messages.filter (fun m => !decide (m.role = Role.system))
  let merged := mergeConsecutive chatMsgs
  let finalMsgs :=
    match merged with
    | [] => merged
    | m :: _ =>
        if m.role = Role.assistant then ⟨Role.user, "[Conversation start]"⟩ :: merged
        else merged
  (systemText, finalMsgs)

/-- No two adjacent messages share a role. -/
def noAdjSameRole : List Message → Bool
  | [] => true
  | [_] => true
  | a :: b :: rest =>
      if a.role = b.role then false else noAdjSameRole (b :: rest)

/-- The list is non-empty and its first message is user-role. -/
def headIsUser : List Message → Bool
  | [] => false
  | m :: _ => decide (m.role = Role.user)

/-! Director engine (src/index.js:1997-2176, 3315-3320).

The engine's mutable state is `settings.{running, currentRound, rounds}`
plus the module-level `isProcessing` and `currentAbortController`.
`AbortController`s are modelled by numeric ids: `abortCtrl` is the live
controller (`none` = JS `null`), `abortedCtrls` records every id whose
`abort()` has been called, and `nextCtrlId` numbers fresh controllers.

`runDirectorRound` is an `async` function; each of its synchronous
segments between suspension points becomes one atomic state-transition
function, and an event relation interleaves them. -/

/-- The director's mutable state. -/
structure DirectorState where
  enabled : Bool
  running : Bool
  currentRound : Nat
  rounds : Nat
  isProcessing : Bool
  abortCtrl : Option Nat
  abortedCtrls : List Nat
  nextCtrlId : Nat
deriving DecidableEq, Repr

/-- `stopDirector(settings)` (src/index.js:2162-2176): clear `running`
and `isProcessing`, abort and null the live controller. -/
def stopDirector (s : DirectorState) : DirectorState :=
  let s1 := { s with running := false, isProcessing := false }
  match s1.abortCtrl with
  | some c => { s1 with abortedCtrls := c :: s1.abortedCtrls, abortCtrl := none }
  | none => s1

/-- The `finally` clause of `runDirectorRound` (src/index.js:2116-2120):
null the controller if it has been aborted. -/
def finallyClause (s : DirectorState) : DirectorState :=
  match s.abortCtrl with
  | some c => if c ∈ s.abortedCtrls then { s with abortCtrl := none } else s
  | none => s

/-- Outcome of the synchronous prefix of `runDirectorRound`. -/
inductive BeginOutcome where
  | notStarted
  | completedStop
  | started
deriving DecidableEq, Repr

/-- The synchronous prefix of `runDirectorRound` (src/index.js:2019-2036):
guard on `running`/`isProcessing`, stop when all rounds are consumed,
otherwise abort any prior controller, allocate a fresh one, set
`isProcessing`, and increment `currentRound`; execution then reaches the
first suspension point. -/
def roundBegin (s : DirectorState) : DirectorState × BeginOutcome :=
  if !s.running || s.isProcessing then (s, .notStarted)
  else if s.rounds ≤ s.currentRound then (stopDirector s, .completedStop)
  else
    let s1 :=
      match s.abortCtrl with
      | some c => { s with abortedCtrls := c :: s.abortedCtrls }
      | none => s
    let s2 := { s1 with
      abortCtrl := some s1.nextCtrlId,
      nextCtrlId := s1.nextCtrlId + 1,
      isProcessing := true,
      currentRound := s1.currentRound + 1 }
    (s2, .started)

/-- The stopped-during-wait exit (src/index.js:2043-2046): return without
touching state (then the `finally` clause runs). -/
def stoppedDuringWaitExit (s : DirectorState) : DirectorState :=
  finallyClause s

/-- The empty-LLM-response handler (src/index.js:2051-2057): warn, clear
`isProcessing`, return (then the `finally` clause runs).  The `Bool`
records whether a user turn was injected on this path: it never is. -/
def emptyResponseResolve (s : DirectorState) : DirectorState × Bool :=
  (finallyClause { s with isProcessing := false }, false)

/-- The preview-skip exit (src/index.js:2077-2085): clear `isProcessing`
and stop the director when the configured rounds are consumed. -/
def previewSkipResolve (s : DirectorState) : DirectorState :=
  let s1 := { s with isProcessing := false }
  let s2 := if s1.rounds ≤ s1.currentRound then stopDirector s1 else s1
  finallyClause s2

/-- The successful send tail (src/index.js:2094-2107): clear
`isProcessing`, stop the director on the last round, inject the turn. -/
def successSendResolve (s : DirectorState) : DirectorState × Bool :=
  let isLastRound := s.rounds ≤ s.currentRound
  let s1 := { s with isProcessing := false }
  let s2 := if isLastRound then stopDirector s1 else s1
  (finallyClause s2, true)

/-- The `catch` block of `runDirectorRound` (src/index.js:2108-2120) —
reached both when the LLM call rejects with `AbortError` (only the log
line differs) and on any other error: clear `isProcessing`, call
`stopDirector`, run the `finally` clause. -/
def catchResolve (s : DirectorState) : DirectorState :=
  finallyClause (stopDirector { s with isProcessing := false })

/-- The success path of `startDirector` (src/index.js:2149-2159) up to
its call of `runDirectorRound`: set `running`, reset `currentRound`,
clear `isProcessing`.  (A failed precondition leaves state untouched.) -/
def startDirectorOk (s : DirectorState) : DirectorState :=
  { s with running := true, currentRound := 0, isProcessing := false }

/-- The init-time round-state reset (src/index.js:3315-3320) on the
persisted `(running, currentRound)` pair: reset both only when the
persisted `running` is true. -/
def initRoundStateReset (running : Bool) (currentRound : Nat) : Bool × Nat :=
  if running then (false, 0) else (running, currentRound)

/-- Events interleaving the engine's atomic segments.  `restart` models a
process restart (the init reset plus fresh module-level variables);
`abortRejection` is the `catch` block of a superseded `runDirectorRound`
invocation whose awaited LLM call rejected with `AbortError`. -/
inductive Event where
  | start
  | roundBegin
  | stoppedWaitExit
  | emptyResponse
  | previewSkip
  | successSend
  | roundError
  | abortRejection
  | stopUser
  | restart
deriving DecidableEq, Repr

/-- One atomic step of the engine. -/
def step (s : DirectorState) (e : Event) : DirectorState :=
  match e with
  | .start => startDirectorOk s
  | .roundBegin => (roundBegin s).1
  | .stoppedWaitExit => stoppedDuringWaitExit s
  | .emptyResponse => (emptyResponseResolve s).1
  | .previewSkip => previewSkipResolve s
  | .successSend => (successSendResolve s).1
  | .roundError => catchResolve s
  | .abortRejection => catchResolve s
  | .stopUser => stopDirector s
  | .restart =>
      let rs := initRoundStateReset s.running s.currentRound
      { s with
        running := rs.1
        currentRound := rs.2
        isProcessing := false
        abortCtrl := none }

/-- Process-start state: `defaultSettings` has `running = false` and
`currentRound = 0`; module-level `isProcessing = false` and
`currentAbortController = null`. -/
def initState (enabled : Bool) (rounds : Nat) : DirectorState :=
  ⟨enabled, false, 0, rounds, false, none, [], 0⟩

/-- States reachable by any event sequence from the process-start state
with a fixed `rounds` setting. -/
inductive Reachable (enabled : Bool) (rounds : Nat) : DirectorState → Prop
  | init : Reachable enabled rounds (initState enabled rounds)
  | next (s : DirectorState) (e : Event) :
      Reachable enabled rounds s → Reachable enabled rounds (step s e)

/-! Engine preservation lemmas. -/

theorem finallyClause_running (s : DirectorState) :
    (finallyClause s).running = s.running := by
  unfold finallyClause
  cases s.abortCtrl with
  | none => rfl
  | some c => dsimp only; split <;> rfl

theorem finallyClause_currentRound (s : DirectorState) :
    (finallyClause s).currentRound = s.currentRound := by
  unfold finallyClause
  cases s.abortCtrl with
  | none => rfl
  | some c => dsimp only; split <;> rfl

theorem finallyClause_rounds (s : DirectorState) :
    (finallyClause s).rounds = s.rounds := by
  unfold finallyClause
  cases s.abortCtrl with
  | none => rfl
  | some c => dsimp only; split <;> rfl

theorem finallyClause_isProcessing (s : DirectorState) :
    (finallyClause s).isProcessing = s.isProcessing := by
  unfold finallyClause
  cases s.abortCtrl with
  | none => rfl
  | some c => dsimp only; split <;> rfl

theorem stopDirector_currentRound (s : DirectorState) :
    (stopDirector s).currentRound = s.currentRound := by
  unfold stopDirector
  cases s.abortCtrl <;> rfl

theorem stopDirector_rounds (s : DirectorState) :
    (stopDirector s).rounds = s.rounds := by
  unfold stopDirector
  cases s.abortCtrl <;> rfl

theorem catchResolve_currentRound (s : DirectorState) :
    (catchResolve s).currentRound = s.currentRound := by
  unfold catchResolve
  rw [finallyClause_currentRound, stopDirector_currentRound]

theorem catchResolve_rounds (s : DirectorState) :
    (catchResolve s).rounds = s.rounds := by
  unfold catchResolve
  rw [finallyClause_rounds, stopDirector_rounds]

theorem previewSkipResolve_currentRound (s : DirectorState) :
    (previewSkipResolve s).currentRound = s.currentRound := by
  unfold previewSkipResolve
  dsimp only
  rw [finallyClause_currentRound]
  split
  · rw [stopDirector_currentRound]
  · rfl

theorem previewSkipResolve_rounds (s : DirectorState) :
    (previewSkipResolve s).rounds = s.rounds := by
  unfold previewSkipResolve
  dsimp only
  rw [finallyClause_rounds]
  split
  · rw [stopDirector_rounds]
  · rfl

theorem successSendResolve_currentRound (s : DirectorState) :
    (successSendResolve s).1.currentRound = s.currentRound := by
  unfold successSendResolve
  dsimp only
  rw [finallyClause_currentRound]
  split
  · rw [stopDirector_currentRound]
  · rfl

theorem successSendResolve_rounds (s : DirectorState) :
    (successSendResolve s).1.rounds = s.rounds := by
  unfold successSendResolve
  dsimp only
  rw [finallyClause_rounds]
  split
  · rw [stopDirector_rounds]
  · rfl

theorem roundBegin_rounds (s : DirectorState) :
    (roundBegin s).1.rounds = s.rounds := by
  unfold roundBegin
  split
  · rfl
  · split
    · rw [stopDirector_rounds]
    · cases s.abortCtrl <;> rfl

theorem roundBegin_currentRound_le (s : DirectorState)
    (h : s.currentRound ≤ s.rounds) :
    (roundBegin s).1.currentRound ≤ s.rounds := by
  unfold roundBegin
  split
  · exact h
  · split
    · rw [stopDirector_currentRound]; exact h
    · rename_i hlt
      cases s.abortCtrl <;> dsimp only <;> omega

theorem step_rounds (s : DirectorState) (e : Event) :
    (step s e).rounds = s.rounds := by
  cases e with
  | start => rfl
  | roundBegin => exact roundBegin_rounds s
  | stoppedWaitExit => exact finallyClause_rounds s
  | emptyResponse => exact finallyClause_rounds _
  | previewSkip => exact previewSkipResolve_rounds s
  | successSend => exact successSendResolve_rounds s
  | roundError => exact catchResolve_rounds s
  | abortRejection => exact catchResolve_rounds s
  | stopUser => exact stopDirector_rounds s
  | restart => rfl

theorem step_currentRound_le (s : DirectorState) (e : Event)
    (h : s.currentRound ≤ s.rounds) : (step s e).currentRound ≤ (step s e).rounds := by
  rw [step_rounds]
  cases e with
  | start => exact Nat.zero_le _
  | roundBegin => exact roundBegin_currentRound_le s h
  | stoppedWaitExit => rw [step, stoppedDuringWaitExit, finallyClause_currentRound]; exact h
  | emptyResponse => rw [step, emptyResponseResolve, finallyClause_currentRound]; exact h
  | previewSkip => rw [step, previewSkipResolve_currentRound]; exact h
  | successSend => rw [step, successSendResolve_currentRound]; exact h
  | roundError => rw [step, catchResolve_currentRound]; exact h
  | abortRejection => rw [step, catchResolve_currentRound]; exact h
  | stopUser => rw [step, stopDirector_currentRound]; exact h
  | restart =>
      show (initRoundStateReset s.running s.currentRound).2 ≤ s.rounds
      unfold initRoundStateReset
      split <;> dsimp only <;> omega

/-- Claim C2: in every state reachable by any sequence of engine
operations (start, round triggers, round resolutions, stop, restart)
from the process-start state with a fixed `rounds` setting,
`currentRound ≤ rounds` holds. -/
theorem reachable_currentRound_le_rounds (enabled : Bool) (rounds : Nat)
    (s : DirectorState) (h : Reachable enabled rounds s) :
    s.currentRound ≤ s.rounds := by
  induction h with
  | init => exact Nat.zero_le _
  | next s e _ ih => exact step_currentRound_le s e ih

/-- Witness for C2: the state after a start and a first round trigger
with `rounds = 2` satisfies the invariant. -/
theorem reachable_currentRound_le_rounds_witness :
    (step (step (initState true 2) Event.start) Event.roundBegin).currentRound ≤
      (step (step (initState true 2) Event.start) Event.roundBegin).rounds :=
  reachable_currentRound_le_rounds true 2 _
    (Reachable.next _ _ (Reachable.next _ _ Reachable.init))

/-- Claim C1 (code bug): after `startDirector` supersedes a prior
in-flight round (state `sPre`: running, processing, live controller id 1
for the new round), the superseded call's `AbortError` resolution — the
`catch` block of `runDirectorRound` — sets `running := false`, clears
`isProcessing`, and aborts and nulls the NEW round's controller, instead
of leaving all of them unchanged. -/
theorem superseded_abort_resolution_mutates_state :
    (step (step (step (step (initState true 2) Event.start) Event.roundBegin)
        Event.start) Event.roundBegin).running = true ∧
    (step (step (step (step (initState true 2) Event.start) Event.roundBegin)
        Event.start) Event.roundBegin).isProcessing = true ∧
    (step (step (step (step (initState true 2) Event.start) Event.roundBegin)
        Event.start) Event.roundBegin).abortCtrl = some 1 ∧
    (step (step (step (step (step (initState true 2) Event.start) Event.roundBegin)
        Event.start) Event.roundBegin) Event.abortRejection).running = false ∧
    (step (step (step (step (step (initState true 2) Event.start) Event.roundBegin)
        Event.start) Event.roundBegin) Event.abortRejection).isProcessing = false ∧
    (step (step (step (step (step (initState true 2) Event.start) Event.roundBegin)
        Event.start) Event.roundBegin) Event.abortRejection).abortCtrl = none ∧
    1 ∈ (step (step (step (step (step (initState true 2) Event.start) Event.roundBegin)
        Event.start) Event.roundBegin) Event.abortRejection).abortedCtrls := by
  decide

/-- Counterexample for C5: with `rounds = 1`, after the first (and last)
round's LLM call returns an empty response, the handler leaves
`settings.running = true` — the director does NOT stop even though it
was the last configured round. -/
theorem empty_response_last_round_still_running :
    (step (step (initState true 1) Event.start) Event.roundBegin).rounds ≤
      (step (step (initState true 1) Event.start) Event.roundBegin).currentRound ∧
    (emptyResponseResolve
      (step (step (initState true 1) Event.start) Event.roundBegin)).1.running = true := by
  decide

/-- Claim C5 as amended: an empty/whitespace-only LLM result clears the
generating flag (`isProcessing` becomes false), leaves `currentRound` at
its already-incremented value, injects no turn, and leaves `running`
unchanged (the director keeps running) — in every state, including when
it was the last configured round. -/
theorem empty_response_clears_processing_keeps_running (s : DirectorState) :
    (emptyResponseResolve s).1.isProcessing = false ∧
    (emptyResponseResolve s).1.currentRound = s.currentRound ∧
    (emptyResponseResolve s).1.running = s.running ∧
    (emptyResponseResolve s).2 = false := by
  unfold emptyResponseResolve
  refine ⟨?_, ?_, ?_, rfl⟩
  · rw [finallyClause_isProcessing]
  · rw [finallyClause_currentRound]
  · rw [finallyClause_running]

/-- Counterexample for C8: with persisted `running = false` and
`currentRound = 7`, the init-time reset does NOT produce
`currentRound = 0`. -/
theorem init_reset_not_running_keeps_round :
    ¬ (initRoundStateReset false 7 = (false, 0)) := by
  decide

/-- Claim C8 as amended: on process start the reset leaves `running`
false in every case, but resets `currentRound` to 0 only when the
persisted `running` was true; a persisted `currentRound` with
`running = false` is kept as-is. -/
theorem init_reset_behavior (running : Bool) (currentRound : Nat) :
    (initRoundStateReset running currentRound).1 = false ∧
    (initRoundStateReset running currentRound).2 = (if running then 0 else currentRound) := by
  cases running <;> simp [initRoundStateReset]

/-! Claim C7: regex filter chain. -/

/-- The compiled actions that actually run: enabled rules with a truthy
pattern that the regex engine accepts, in listed order. -/
def activeCompiledRules (compile : RegexRule → Option (String → String))
    (rules : List RegexRule) : List (String → String) :=
  (rules.filter (fun r => r.enabled && !(r.pattern = ""))).filterMap compile

theorem map_content_update_self (messages : List Message) :
    messages.map (fun m => { m with content := m.content }) = messages := by
  induction messages with
  | nil => rfl
  | cons m t ih => simp only [List.map_cons, ih]

/-- Claim C7: `applyRegexRules` is total — a rule whose pattern does not
compile (`compile` returns `none`) is merely excluded — and the result is
exactly each message with the surviving rules' replacement actions folded
over its content in listed order, each acting on the previous one's
output. -/
theorem applyRegexRules_total_fold (compile : RegexRule → Option (String → String))
    (messages : List Message) (rules : List RegexRule) :
    applyRegexRules compile messages rules =
      messages.map (fun m =>
        { m with content := (activeCompiledRules compile rules).foldl (fun c f => f c) m.content }) := by
  unfold applyRegexRules activeCompiledRules
  by_cases h0 : rules.isEmpty
  · simp only [h0, if_true]
    rw [List.isEmpty_iff] at h0
    subst h0
    simp only [List.filter_nil, List.filterMap_nil, List.foldl_nil]
    exact (map_content_update_self messages).symm
  · simp only [h0, if_false]
    by_cases h1 : (rules.filter (fun r => r.enabled && !(r.pattern = ""))).isEmpty
    · simp only [h1, if_true]
      rw [List.isEmpty_iff] at h1
      rw [h1]
      simp only [List.filterMap_nil, List.foldl_nil]
      exact (map_content_update_self messages).symm
    · simp only [h1, if_false]
      by_cases h2 : ((rules.filter (fun r => r.enabled && !(r.pattern = ""))).filterMap compile).isEmpty
      · simp only [h2, if_true]
        rw [List.isEmpty_iff] at h2
        rw [h2]
        simp only [List.foldl_nil]
        exact (map_content_update_self messages).symm
      · simp only [h2, if_false]
        apply List.map_congr_left
        intro m _
        dsimp only
        split
        · rfl
        · rename_i hne
          rw [not_not] at hne
          rw [hne]

/-! Claim C6: proxy response shape detection. -/

/-- Counterexample for C6's parenthetical: a recognized-but-empty
response — `{ choices: [ {} ] }`, whose first choice carries neither
`message.content` nor `text` — decodes to the empty string as a SUCCESS,
not to a malformed-response error. -/
theorem proxy_decode_empty_choice_success :
    decodeProxyResponse (ProxyResponse.obj (some [⟨none, none⟩]) none) =
      Except.ok "" := by
  rfl

/-- Claim C6 as amended: `generateViaProxy` decodes in the fixed priority
order bare string → `choices[0]` (returning `message?.content || text
|| ''`) → `content[0]` (returning `text || ''`) → the distinct
`Unexpected proxy response format` error; a response matching none of
the three shapes errors, while a matched entry with missing fields
yields an empty-string success. -/
theorem proxy_decode_shape_priority :
    (∀ s, decodeProxyResponse (ProxyResponse.str s) = Except.ok s) ∧
    (∀ (c : ChoiceEntry) (rest : List ChoiceEntry) (content : Option (List ContentEntry)),
      decodeProxyResponse (ProxyResponse.obj (some (c :: rest)) content) =
        Except.ok (jsOr (choiceMessageContent c) (jsOr c.text ""))) ∧
    (∀ (choices : Option (List ChoiceEntry)) (e : ContentEntry) (rest : List ContentEntry),
      choices = none ∨ choices = some [] →
      decodeProxyResponse (ProxyResponse.obj choices (some (e :: rest))) =
        Except.ok (jsOr e.text "")) ∧
    (∀ (choices : Option (List ChoiceEntry)) (content : Option (List ContentEntry)),
      choices = none ∨ choices = some [] →
      content = none ∨ content = some [] →
      decodeProxyResponse (ProxyResponse.obj choices content) =
        Except.error "Unexpected proxy response format") := by
  refine ⟨fun s => rfl, fun c rest content => rfl, ?_, ?_⟩
  · rintro choices e rest (rfl | rfl) <;> rfl
  · rintro choices content (rfl | rfl) (rfl | rfl) <;> rfl

/-- Witness for C6: a Claude-shaped body with no `choices` decodes to its
first content entry's text, and a body with an empty `choices` array and
no `content` errors. -/
theorem proxy_decode_shape_priority_witness :
    decodeProxyResponse (ProxyResponse.obj none (some [⟨some "t"⟩])) = Except.ok "t" ∧
    decodeProxyResponse (ProxyResponse.obj (some []) none) =
      Except.error "Unexpected proxy response format" := by
  constructor
  · have h := proxy_decode_shape_priority.2.2.1 none ⟨some "t"⟩ [] (Or.inl rfl)
    simpa [jsOr] using h
  · exact proxy_decode_shape_priority.2.2.2 (some []) none (Or.inr rfl) (Or.inl rfl)

/-! Claim C4: Claude-native adapter normalization. -/

theorem mergeRun_head_role (l : List Message) :
    ∀ cur : Message, ∃ c l2, mergeRun cur l = ⟨cur.role, c⟩ :: l2 := by
  induction l with
  | nil => exact fun cur => ⟨cur.content, [], rfl⟩
  | cons b rest ih =>
      intro cur
      rw [mergeRun]
      split
      · exact ih ⟨cur.role, cur.content ++ "\n\n" ++ b.content⟩
      · exact ⟨cur.content, mergeRun b rest, rfl⟩

theorem mergeRun_noAdj (l : List Message) :
    ∀ cur : Message, noAdjSameRole (mergeRun cur l) = true := by
  induction l with
  | nil => intro cur; rfl
  | cons b rest ih =>
      intro cur
      rw [mergeRun]
      split
      · exact ih ⟨cur.role, cur.content ++ "\n\n" ++ b.content⟩
      · rename_i hne
        obtain ⟨c, l2, hc⟩ := mergeRun_head_role rest b
        rw [hc]
        rw [noAdjSameRole]
        rw [if_neg hne]
        rw [← hc]
        exact ih b

theorem mergeConsecutive_head_role (l : List Message) (a : Message) :
    ∃ c l2, mergeConsecutive (a :: l) = ⟨a.role, c⟩ :: l2 :=
  mergeRun_head_role l a

theorem mergeConsecutive_noAdj (l : List Message) :
    noAdjSameRole (mergeConsecutive l) = true := by
  cases l with
  | nil => rfl
  | cons a t => exact mergeRun_noAdj t a

/-- Counterexample for C4: on an input with no non-system messages (here
a single system message) the adapter's output message list is empty, so
it does not begin with a user-role message. -/
theorem claude_normalize_system_only_counterexample :
    (claudeNormalize [⟨Role.system, "sys"⟩]).2 = [] ∧
    headIsUser (claudeNormalize [⟨Role.system, "sys"⟩]).2 = false := by
  constructor <;> rfl

/-- Claim C4 as amended: the Claude adapter's normalized output never
contains two adjacent messages of the same role; and whenever the input
contains at least one non-system message, the output begins with a
user-role message. -/
theorem claude_normalize_no_adjacent_roles (messages : List Message) :
    noAdjSameRole (claudeNormalize messages).2 = true ∧
    (messages.filter (fun m => !decide (m.role = Role.system)) ≠ [] →
      headIsUser (claudeNormalize messages).2 = true) := by
  unfold claudeNormalize
  dsimp only
  cases hf : messages.filter (fun m => !decide (m.role = Role.system)) with
  | nil =>
      constructor
      · rfl
      · intro hne; exact absurd rfl hne
  | cons a t =>
      have hmem : a ∈ messages.filter (fun m => !decide (m.role = Role.system)) := by
        rw [hf]; exact List.mem_cons_self a t
      have hrole : a.role ≠ Role.system := by
        have := (List.mem_filter.mp hmem).2
        simpa using this
      obtain ⟨c, l2, hc⟩ := mergeConsecutive_head_role t a
      have hnoadj := mergeConsecutive_noAdj (a :: t)
      rw [hc] at hnoadj
      rw [hc]
      dsimp only
      by_cases ha : a.role = Role.assistant
      · rw [if_pos ha]
        refine ⟨?_, fun _ => rfl⟩
        rw [noAdjSameRole]
        rw [ha]
        rw [if_neg (by decide : ¬ (Role.user = Role.assistant))]
        have h2 : noAdjSameRole (⟨Role.assistant, c⟩ :: l2) = true := by
          rw [← ha]; exact hnoadj
        exact h2
      · rw [if_neg ha]
        refine ⟨hnoadj, fun _ => ?_⟩
        have huser : a.role = Role.user := by
          cases h : a.role
          · exact absurd h hrole
          · rfl
          · exact absurd h ha
        rw [headIsUser]
        rw [huser]
        rfl

/-- Witness for C4: a single assistant message yields the placeholder
user opening: no adjacent same-role pair, and the output begins with a
user message. -/
theorem claude_normalize_no_adjacent_roles_witness :
    noAdjSameRole (claudeNormalize [⟨Role.assistant, "a"⟩]).2 = true ∧
    headIsUser (claudeNormalize [⟨Role.assistant, "a"⟩]).2 = true :=
  ⟨(claude_normalize_no_adjacent_roles [⟨Role.assistant, "a"⟩]).1,
    (claude_normalize_no_adjacent_roles [⟨Role.assistant, "a"⟩]).2 (by decide)⟩

/-! Claim C9: chat-history block body.  The right-hand sides below follow
the spec's words: the most recent `N` turns, the exclusion of non-user
system notices, and the two renderings. -/

/-- The most recent `n` turns of a conversation (spec side). -/
def mostRecent (chat : List ChatMessage) (n : Nat) : List ChatMessage :=
  (chat.reverse.take n).reverse

/-- A turn survives unless it is a non-user system notice (spec side). -/
def keepTurn (m : ChatMessage) : Bool :=
  !(m.is_system && !m.is_user)

/-- Text-mode rendering of one turn: a `Speaker: text` line with no role
metadata, followed by the blank-line separator. -/
def textLine (m : ChatMessage) : String :=
  s!"{speakerName m}: {m.mes}\n\n"

/-- Role-mode rendering of one turn: a role-tagged `[role] Speaker: text`
line, followed by the blank-line separator. -/
def roleLine (m : ChatMessage) : String :=
  s!"[{roleOf m}] {speakerName m}: {m.mes}\n\n"

theorem sliceLastJS_eq_mostRecent (chat : List ChatMessage) (n : Nat)
    (h : 0 < n) : sliceLastJS chat n = mostRecent chat n := by
  unfold sliceLastJS mostRecent
  rw [if_neg (Nat.pos_iff_ne_zero.mp h)]
  have := List.rtake_eq_reverse_take_reverse (l := chat) (n := n)
  simpa [List.rtake] using this

theorem foldl_append_line (f : ChatMessage → String) (l : List ChatMessage) :
    ∀ init : String,
      l.foldl (fun acc m => acc ++ f m) init = init ++ String.join (l.map f) := by
  induction l with
  | nil =>
      intro init
      apply String.ext
      simp
  | cons a t ih =>
      intro init
      rw [List.foldl_cons, ih (init ++ f a), List.map_cons]
      apply String.ext
      simp

/-- Claim C9: for a positive configured context length (the setting's
default is 20 and its UI setter coerces falsy values to 20, so it is
always positive), the chat-history body is built from the most recent
`contextLength` turns excluding non-user system notices, rendered as
plain `Speaker: text` lines in `'text'` mode and as role-tagged lines in
any other mode. -/
theorem buildChatHistory_recent_filtered_render (chat : List ChatMessage)
    (contextLength : Nat) (mode : String) (h : 0 < contextLength) :
    buildChatHistory chat contextLength mode =
      if mode = "text" then
        (String.join (((mostRecent chat contextLength).filter keepTurn).map textLine)).trim
      else
        (String.join (((mostRecent chat contextLength).filter keepTurn).map roleLine)).trim := by
  unfold buildChatHistory
  rw [sliceLastJS_eq_mostRecent chat contextLength h]
  by_cases hm : mode = "text"
  · rw [if_pos hm, if_pos hm]
    show (((mostRecent chat contextLength).filter keepTurn).foldl
        (fun acc m => acc ++ textLine m) "").trim =
      (String.join (((mostRecent chat contextLength).filter keepTurn).map textLine)).trim
    rw [foldl_append_line textLine _ ""]
    rw [String.empty_append]
  · rw [if_neg hm, if_neg hm]
    show (((mostRecent chat contextLength).filter keepTurn).foldl
        (fun acc m => acc ++ roleLine m) "").trim =
      (String.join (((mostRecent chat contextLength).filter keepTurn).map roleLine)).trim
    rw [foldl_append_line roleLine _ ""]
    rw [String.empty_append]

/-- Witness for C9: a two-turn chat with context length 1 in text mode. -/
theorem buildChatHistory_recent_filtered_render_witness :
    0 < 1 ∧
    buildChatHistory [⟨"", true, false, "hi"⟩, ⟨"Bob", false, false, "yo"⟩] 1 "text" =
      (String.join (((mostRecent [⟨"", true, false, "hi"⟩, ⟨"Bob", false, false, "yo"⟩] 1).filter
        keepTurn).map textLine)).trim := by
  refine ⟨Nat.one_pos, ?_⟩
  have h := buildChatHistory_recent_filtered_render
    [⟨"", true, false, "hi"⟩, ⟨"Bob", false, false, "yo"⟩] 1 "text" Nat.one_pos
  rw [if_pos rfl] at h
  exact h

/-! Claim C3: the message assembler returns exactly one user message. -/

/-- The prompt-manager config `buildMessages` works with:
`preset?.prompt_manager || getDefaultPromptManagerConfig()`
(src/index.js:1828). -/
def pmConfigOf (s : Settings) : PromptManagerConfig :=
  match getCurrentPreset s with
  | some p => (p.prompt_manager).getD (getDefaultPromptManagerConfig "role")
  | none => getDefaultPromptManagerConfig "role"

/-- A block's resolved body within `buildMessages s chat`. -/
def resolvedBody (s : Settings) (chat : List ChatMessage) (b : Block) : String :=
  resolveBlockContent s (getCurrentPreset s) chat (pmConfigOf s).chatHistoryMode b

/-- A block survives assembly: it is enabled and its resolved body is not
empty or whitespace-only. -/
def survivesBlock (s : Settings) (chat : List ChatMessage) (b : Block) : Bool :=
  b.enabled && !decide ((resolvedBody s chat b).trim = "")

theorem filterMap_blocks (s : Settings) (preset : Option Preset)
    (chat : List ChatMessage) (mode : String) (l : List Block) :
    l.filterMap (fun block =>
        if !block.enabled then none
        else if (resolveBlockContent s preset chat mode block).trim = "" then none
        else some (wrapBlock block (resolveBlockContent s preset chat mode block))) =
      (l.filter (fun b =>
          b.enabled && !decide ((resolveBlockContent s preset chat mode b).trim = ""))).map
        (fun b => wrapBlock b (resolveBlockContent s preset chat mode b)) := by
  induction l with
  | nil => rfl
  | cons b t ih =>
      rw [List.filterMap_cons, List.filter_cons]
      by_cases hb : b.enabled
      · by_cases hc : (resolveBlockContent s preset chat mode b).trim = ""
        · simp [hb, hc]
          simpa using ih
        · simp [hb, hc]
          simpa using ih
      · simp [hb]
        simpa using ih

/-- Claim C3: for every settings (hence every preset) and chat,
`buildMessages` returns exactly one message, of user role, whose content
is the blank-line-joined concatenation, in block order, of the wrapped
bodies of the enabled blocks whose resolved body is not
empty/whitespace-only (`wrapBlock` adds `<tag>\n…\n</tag>` exactly when
the block's tag name is non-blank); a preset with no surviving blocks
still yields that single user message (with empty content). -/
theorem buildMessages_single_user_message (s : Settings) (chat : List ChatMessage) :
    buildMessages s chat =
      [⟨Role.user, String.intercalate "\n\n"
        ((((pmConfigOf s).blocks).filter (survivesBlock s chat)).map
          (fun b => wrapBlock b (resolvedBody s chat b)))⟩] := by
  have key := filterMap_blocks s (getCurrentPreset s) chat
    (pmConfigOf s).chatHistoryMode (pmConfigOf s).blocks
  calc buildMessages s chat
      = [⟨Role.user, String.intercalate "\n\n"
          ((pmConfigOf s).blocks.filterMap (fun block =>
            if !block.enabled then none
            else if (resolveBlockContent s (getCurrentPreset s) chat
                (pmConfigOf s).chatHistoryMode block).trim = "" then none
            else some (wrapBlock block (resolveBlockContent s (getCurrentPreset s) chat
                (pmConfigOf s).chatHistoryMode block))))⟩] := rfl
    _ = _ := by rw [key]; rfl

/-! Claim C10: `getCurrentPreset` nullability and lazy tag migration. -/

/-- The default tag name the migration assigns per block id (spec side,
mirroring src/utils/preset-manager.js:88-94). -/
def defaultTagName (id : String) : String :=
  if id = "chat_history" then "history log"
  else if id = "plot_outline" then "plot outline"
  else ""

theorem migrateBlock_tagName (b : Block) :
    (migrateBlock b).tagName = some ((b.tagName).getD (defaultTagName b.id)) := by
  cases hb : b.tagName with
  | some t =>
      rw [migrateBlock, hb]
      dsimp only
      rw [Option.getD_some]
      exact hb
  | none =>
      rw [migrateBlock, hb]
      rfl

theorem default_blocks_tagged :
    ∀ b ∈ DEFAULT_PM_BLOCKS, ∃ t, b.tagName = some t := by
  intro b hb
  rw [DEFAULT_PM_BLOCKS] at hb
  simp only [List.mem_cons, List.not_mem_nil, or_false] at hb
  rcases hb with rfl | rfl | rfl | rfl <;> exact ⟨_, rfl⟩

/-- Claim C10: `getCurrentPreset` returns `null` exactly when
`selectedPreset` is the empty string or names no stored preset; any
preset it returns carries a `prompt_manager` config in which every block
has a defined `tagName`, and the lazy migration fills an undefined
`tagName` with `history log` for `chat_history`, `plot outline` for
`plot_outline`, and the empty string otherwise. -/
theorem getCurrentPreset_null_iff_and_migrated_tags (s : Settings) :
    (getCurrentPreset s = none ↔
      s.selectedPreset = "" ∨ lookupPreset s.presets s.selectedPreset = none) ∧
    (∀ p, getCurrentPreset s = some p →
      ∃ c, p.prompt_manager = some c ∧ ∀ b ∈ c.blocks, ∃ t, b.tagName = some t) ∧
    (∀ b : Block, (migrateBlock b).tagName = some ((b.tagName).getD (defaultTagName b.id))) := by
  refine ⟨?_, ?_, migrateBlock_tagName⟩
  · unfold getCurrentPreset
    by_cases hsel : s.selectedPreset = ""
    · simp [hsel]
    · cases hl : lookupPreset s.presets s.selectedPreset <;> simp [hsel, hl]
  · intro p hp
    unfold getCurrentPreset at hp
    by_cases hsel : s.selectedPreset = ""
    · rw [if_pos hsel] at hp
      exact absurd hp (by simp)
    · rw [if_neg hsel] at hp
      cases hl : lookupPreset s.presets s.selectedPreset with
      | none => rw [hl] at hp; exact absurd hp (by simp)
      | some p0 =>
          rw [hl] at hp
          have hp2 : ensurePromptManagerConfig p0 = p := by
            injection hp
          subst hp2
          unfold ensurePromptManagerConfig
          cases hpm : p0.prompt_manager with
          | none =>
              refine ⟨getDefaultPromptManagerConfig "text", rfl, ?_⟩
              exact default_blocks_tagged
          | some c =>
              refine ⟨{ c with blocks := c.blocks.map migrateBlock }, rfl, ?_⟩
              intro b hb
              obtain ⟨b0, _, rfl⟩ := List.mem_map.mp hb
              exact ⟨_, migrateBlock_tagName b0⟩

/-- Witness for C10: a settings with one selected pre-migration preset
(no `prompt_manager`); the migrated preset's blocks all carry tags. -/
theorem getCurrentPreset_null_iff_and_migrated_tags_witness :
    ∃ c, (ensurePromptManagerConfig ⟨"p", "SYS", none⟩).prompt_manager = some c ∧
      ∀ b ∈ c.blocks, ∃ t, b.tagName = some t :=
  (getCurrentPreset_null_iff_and_migrated_tags
      ⟨true, false, 5, 0, 20, false, "", 999, "p", [("p", ⟨"p", "SYS", none⟩)]⟩).2.1
    (ensurePromptManagerConfig ⟨"p", "SYS", none⟩) (by rfl)

end StPlotDirector
